import Mathlib

/-!
# Verification of the Logger dispatch-and-delivery pipeline

Shallow embedding of the logging pipeline of the `@giodev/logger` repository:
the RFC 5424 severity model, the `Logger` facade (entry ids, metrics,
throw-or-log semantics of high-severity calls), the `SyncDispatcher`, the
`ReactiveDispatcher` (batching, idle auto-shutdown), and the ordered-retry
HTTP delivery queue.

JavaScript numbers used as counters and ids are modelled as `Nat` (the
counters only ever increment by one from zero, far below 2^53, so `Nat`
is exact for every reachable value).  Wall-clock timestamps are an opaque
`Nat` supplied by the caller of each step.  Exceptions are modelled with
explicit result values (`Option Thrown`, `Except`), and a transport whose
`log` call raises is modelled by a boolean-valued behaviour `Log → Bool`.
-/

/-- RFC 5424 severity: ordinal 0..7, lower ordinal = more urgent
(`models/Level.type.ts`). -/
abbrev Level := Nat

def Level.emergency : Level := 0

def Level.alert : Level := 1

def Level.critical : Level := 2

def Level.error : Level := 3

def Level.warning : Level := 4

def Level.notice : Level := 5

def Level.informational : Level := 6

def Level.debug : Level := 7

/-- Immutable log entry (`models/Log.type.ts`): `id`, `level`, `subject`,
`message`, `timeStamp`. -/
structure Log where
  id : Nat
  level : Level
  subject : String
  message : String
  timeStamp : Nat
deriving Repr, DecidableEq

/-- A transport as seen by a dispatcher: `transport.log(log)` either returns
or raises.  `raisesOn log = true` means the delivery call throws for that
entry (the exception is caught inside the dispatchers). -/
structure LogTransport where
  raisesOn : Log → Bool

/-!
## SyncDispatcher (`src/unnamed/part_011`, metrics-aware snapshot)

`dispatch(log)`:
- `if (log.level > this.minLevel) { this.metrics?.recordFiltered(); return; }`
- `if (this.transports.length === 0) return;`
- for each transport, `try { transport.log(log) } catch { encounteredError = true; this.metrics?.recordTransportError(); }`
- after the loop, `this.metrics?.recordDispatched();`

The result records which transports had their `log` method invoked (by index,
in iteration order) and how many times each metrics operation was invoked.
-/

structure SyncDispatcher where
  transports : List LogTransport
  minLevel : Level

/-- Observable outcome of one `SyncDispatcher.dispatch` call: indices of
transports whose `log` was invoked, in order, plus the number of
`recordFiltered` / `recordDispatched` / `recordTransportError` invocations. -/
structure SyncDispatchResult where
  calls : List Nat
  filtered : Nat
  dispatched : Nat
  transportErrors : Nat
deriving Repr, DecidableEq

/-- The transport loop of `SyncDispatcher.dispatch`: every transport is
invoked (the `catch` swallows a raise and counts one transport error), so the
call list covers all indices and the error count is the number of raising
transports. -/
def emitToTransports (log : Log) : List LogTransport → Nat → List Nat × Nat
| [], _ => ([], 0)
| t :: rest, i =>
    let r := emitToTransports log rest (i + 1)
    (i :: r.1, (if t.raisesOn log then 1 else 0) + r.2)

/-- `SyncDispatcher.dispatch` (`src/unnamed/part_011`, lines 87-111). -/
def SyncDispatcher.dispatch (d : SyncDispatcher) (log : Log) : SyncDispatchResult :=
  if log.level > d.minLevel then
    { calls := [], filtered := 1, dispatched := 0, transportErrors := 0 }
  else if d.transports.length = 0 then
    { calls := [], filtered := 0, dispatched := 0, transportErrors := 0 }
  else
    let r := emitToTransports log d.transports 0
    { calls := r.1, filtered := 0, dispatched := 1, transportErrors := r.2 }

theorem emitToTransports_fst (log : Log) :
    ∀ (ts : List LogTransport) (i : Nat),
      (emitToTransports log ts i).1 = List.range' i ts.length := by
  intro ts
  induction ts with
  | nil => intro i; simp [emitToTransports]
  | cons t rest ih =>
      intro i
      simp [emitToTransports, ih, List.range'_succ]

theorem emitToTransports_snd (log : Log) :
    ∀ (ts : List LogTransport),
      ∀ i, (emitToTransports log ts i).2 = ts.countP (fun t => t.raisesOn log) := by
  intro ts
  induction ts with
  | nil => intro i; simp [emitToTransports]
  | cons t rest ih =>
      intro i
      by_cases h : t.raisesOn log = true
      · simp [emitToTransports, ih, List.countP_cons, h, Nat.add_comm]
      · simp [emitToTransports, ih, List.countP_cons, h]

/-- Example transport whose delivery always succeeds. -/
def exTransportOk : LogTransport := ⟨fun _ => false⟩

/-- Example transport whose delivery call always raises. -/
def exTransportBad : LogTransport := ⟨fun _ => true⟩

/-- Example dispatcher: two transports, threshold `warning`. -/
def exDispatcher : SyncDispatcher := ⟨[exTransportOk, exTransportBad], Level.warning⟩

/-- Example entry at `informational` (rejected by the `warning` threshold). -/
def exLogInfo : Log := ⟨1, Level.informational, "S", "m", 0⟩

/-- Example entry at `error` (admitted by the `warning` threshold). -/
def exLogErr : Log := ⟨2, Level.error, "S", "m", 0⟩

/-- C1: `SyncDispatcher.dispatch` delivers an entry to a transport of its
snapshot exactly when `log.level ≤ minLevel`; an entry with
`log.level > minLevel` is delivered to no transport and records the
`filtered` metric exactly once (and nothing else). -/
theorem syncDispatcher_dispatch_threshold (d : SyncDispatcher) (log : Log) :
    (∀ i, i < d.transports.length →
        (i ∈ (d.dispatch log).calls ↔ log.level ≤ d.minLevel)) ∧
    (log.level > d.minLevel →
        (d.dispatch log).calls = [] ∧ (d.dispatch log).filtered = 1 ∧
        (d.dispatch log).dispatched = 0 ∧ (d.dispatch log).transportErrors = 0) := by
  by_cases h : log.level > d.minLevel
  · refine ⟨?_, fun _ => by simp [SyncDispatcher.dispatch, h]⟩
    intro i _
    simp [SyncDispatcher.dispatch, h]
  · refine ⟨?_, fun hcontra => absurd hcontra h⟩
    intro i hi
    by_cases hlen : d.transports.length = 0
    · omega
    · simp only [SyncDispatcher.dispatch, if_neg h, if_neg hlen]
      rw [emitToTransports_fst, ← List.range_eq_range', List.mem_range]
      constructor
      · intro _; exact Nat.le_of_not_lt h
      · intro _; exact hi

/-- Witness for C1 at a concrete dispatcher and two concrete entries. -/
theorem syncDispatcher_dispatch_threshold_witness :
    (1 < exDispatcher.transports.length ∧
      (1 ∈ (exDispatcher.dispatch exLogErr).calls ↔
        exLogErr.level ≤ exDispatcher.minLevel)) ∧
    (exLogInfo.level > exDispatcher.minLevel ∧
      ((exDispatcher.dispatch exLogInfo).calls = [] ∧
       (exDispatcher.dispatch exLogInfo).filtered = 1 ∧
       (exDispatcher.dispatch exLogInfo).dispatched = 0 ∧
       (exDispatcher.dispatch exLogInfo).transportErrors = 0)) :=
  ⟨⟨by decide, (syncDispatcher_dispatch_threshold exDispatcher exLogErr).1 1 (by decide)⟩,
   ⟨by decide, (syncDispatcher_dispatch_threshold exDispatcher exLogInfo).2 (by decide)⟩⟩

/-- C6: for an entry admitted by the threshold and a non-empty transport
snapshot, a raising transport is contained: `transportErrors` counts exactly
one increment per raising transport, every transport (raising or not) still
gets its `log` call, `filtered` is not incremented, and `dispatched` is
recorded exactly once after the loop. -/
theorem syncDispatcher_transport_error_containment (d : SyncDispatcher) (log : Log)
    (haccept : log.level ≤ d.minLevel) (hne : d.transports ≠ []) :
    (d.dispatch log).transportErrors = d.transports.countP (fun t => t.raisesOn log) ∧
    (d.dispatch log).calls = List.range d.transports.length ∧
    (d.dispatch log).filtered = 0 ∧
    (d.dispatch log).dispatched = 1 := by
  have h : ¬ log.level > d.minLevel := Nat.not_lt.mpr haccept
  have hlen : ¬ d.transports.length = 0 := by
    simpa [List.length_eq_zero] using hne
  unfold SyncDispatcher.dispatch
  rw [if_neg h, if_neg hlen]
  refine ⟨emitToTransports_snd log d.transports 0, ?_, rfl, rfl⟩
  show (emitToTransports log d.transports 0).1 = _
  rw [emitToTransports_fst, ← List.range_eq_range']

/-- Witness for C6: concrete dispatcher with one succeeding and one raising
transport, concrete admitted entry. -/
theorem syncDispatcher_transport_error_containment_witness :
    exLogErr.level ≤ exDispatcher.minLevel ∧ exDispatcher.transports ≠ [] ∧
    ((exDispatcher.dispatch exLogErr).transportErrors =
        exDispatcher.transports.countP (fun t => t.raisesOn exLogErr) ∧
      (exDispatcher.dispatch exLogErr).calls = List.range exDispatcher.transports.length ∧
      (exDispatcher.dispatch exLogErr).filtered = 0 ∧
      (exDispatcher.dispatch exLogErr).dispatched = 1) :=
  ⟨by decide, by simp [exDispatcher],
   syncDispatcher_transport_error_containment exDispatcher exLogErr (by decide)
     (by simp [exDispatcher])⟩

/-!
## Logger facade (`src/packages/logger/src/Logger.ts`, lines 186-472)

The facade builds entries with a pre-incremented per-instance id counter,
keeps the metrics state (`built`, `dispatched`, `filtered`,
`transportErrors` — all initialised to zero and incremented by one per
`recordX` call), and resolves the throw-or-log duality of the four
high-severity levels in `handleErrorLevel`.

Runtime payload values are modelled by `JSVal`, carrying exactly the
distinctions inspected by `normalizeMessage` (`utils/MessageNormalizer.ts`),
`input instanceof Error`, and `isErrorBuilder`
(`src/unnamed/part_015`, lines 137-145).  For payload kinds whose string
form is produced by the host runtime (numbers, bigints, symbols, function
sources, `JSON.stringify` output of plain objects) the resulting string is
carried as data on the constructor, since no claim concerns how the host
renders them.
-/

/-- The `.prototype` property of a function value, as inspected by
`isErrorBuilder`: whether it is `Error.prototype` itself and whether
`Error.prototype` occurs in its prototype chain. -/
structure FnProto where
  isErrorProto : Bool
  errorProtoInChain : Bool
deriving Repr, DecidableEq

/-- Runtime payload values distinguished by the Logger pipeline. -/
inductive JSVal where
  /-- a string payload -/
  | str (s : String)
  /-- an object whose prototype chain includes `Error.prototype`
  (an already-constructed error instance) -/
  | errVal (stack : Option String) (name msg : String)
  /-- `undefined` -/
  | undef
  /-- `null` -/
  | nullv
  /-- number / boolean / bigint / symbol, carrying its `String(x)` form -/
  | prim (stringForm : String)
  /-- a function value: its `.prototype` property (when truthy), its
  `.name`, and its `.toString()` source form -/
  | fnVal (protoProp : Option FnProto) (name : String) (src : String)
  /-- any other object, carrying the string `stringifyObject` produces
  for it -/
  | obj (serialized : String)
deriving Repr, DecidableEq

/-- `input instanceof Error` as used by `Logger.handleErrorLevel`. -/
def instanceofError : JSVal → Bool
  | .errVal .. => true
  | _ => false

/-- `isErrorBuilder` (`src/unnamed/part_015`, lines 137-145): false unless
the value is a function with a truthy `.prototype` that is
`Error.prototype` or has it in its prototype chain. -/
def isErrorBuilder : JSVal → Bool
  | .fnVal (some p) _ _ => p.isErrorProto || p.errorProtoInChain
  | _ => false

/-- `normalizeMessage` (`utils/MessageNormalizer.ts`): strings pass through;
an error maps to its stack or `name: message`; `undefined`/`null` to their
literal names; primitives to their `String(x)` form; a function to
`[function <name>]` when its name is non-empty (JS truthiness of
`message.name`) and to its source text otherwise; other objects to their
serialized form. -/
def normalizeMessage : JSVal → String
  | .str s => s
  | .errVal stack name msg => stack.getD (name ++ ": " ++ msg)
  | .undef => "undefined"
  | .nullv => "null"
  | .prim sf => sf
  | .fnVal _ name src => if name ≠ "" then "[function " ++ name ++ "]" else src
  | .obj s => s

/-- Model of JavaScript `String.prototype.trim()`: strip leading and
trailing whitespace characters. -/
def jsTrim (s : String) : String :=
  (((s.data.dropWhile Char.isWhitespace).reverse.dropWhile Char.isWhitespace).reverse).asString

/-- Message construction of `buildError` (`src/unnamed/part_015`,
lines 119-130) for the constructor case:
`` `(${subject}) ${message ? `- ${message}` : ''}`.trim() ``.
A `message` that is `undefined` or the empty string is falsy, so the
`- ` segment is omitted. -/
def buildErrorMessage (subject : String) (message : Option String) : String :=
  jsTrim ("(" ++ subject ++ ") " ++
    (match message with
     | some m => if m ≠ "" then "- " ++ m else ""
     | none => ""))

/-- Per-Logger mutable state: the sequential id counter (`counterID = 0` at
construction) and the four metrics counters (`metricsState`, all zero at
construction). -/
structure LoggerState where
  counterID : Nat
  built : Nat
  dispatched : Nat
  filtered : Nat
  transportErrors : Nat
deriving Repr, DecidableEq

/-- Freshly constructed Logger state. -/
def LoggerState.init : LoggerState :=
  { counterID := 0, built := 0, dispatched := 0, filtered := 0, transportErrors := 0 }

/-- Construction-time configuration that the facade derives from its
options: the resolved transport list, the minimum level
(default `Level.debug`), and `isMetricsEnabled`. -/
structure LoggerConfig where
  transports : List LogTransport
  minLevel : Level
  metricsEnabled : Bool

/-- `this.hasTransport = transports.length > 0`. -/
def LoggerConfig.hasTransport (cfg : LoggerConfig) : Bool :=
  decide (cfg.transports.length > 0)

/-- The `metrics` constructor option: absent, a boolean, or an object with
an optional `enabled` flag (and possibly an `onUpdate` callback). -/
inductive MetricsOpt where
  | absent
  | boolOpt (b : Bool)
  | objOpt (enabled : Option Bool) (hasOnUpdate : Bool)
deriving Repr, DecidableEq

/-- `isMetricsEnabled` as computed by the Logger constructor:
`typeof m !== "boolean" && m?.enabled || typeof m === "boolean" && m`
(truthiness of the resulting value). -/
def isMetricsEnabledOf : MetricsOpt → Bool
  | .absent => false
  | .boolOpt b => b
  | .objOpt enabled _ => enabled.getD false

/-- `recordBuilt` of the facade metrics collector (the backing
`metricsState` always exists, so the counter increments regardless of
`isMetricsEnabled`; only the snapshot accessor is gated). -/
def recordBuilt (s : LoggerState) : LoggerState :=
  { s with built := s.built + 1 }

/-- `Logger.build` (lines 360-362): pre-increments `counterID` and stamps
the entry with the incremented value. -/
def Logger.build (s : LoggerState) (level : Level) (subject message : String)
    (now : Nat) : Log × LoggerState :=
  ({ id := s.counterID + 1, level := level, subject := subject,
     message := message, timeStamp := now },
   { s with counterID := s.counterID + 1 })

/-- `Logger.emit` (lines 372-378) with the default `sync` dispatcher wired
in by `DISPATCHER_FACTORIES.sync`: `recordBuilt`; build the entry from the
normalized message; if no transport is configured return the entry without
dispatching; otherwise run `SyncDispatcher.dispatch`, whose metrics
callbacks increment this Logger's counters. -/
def Logger.emit (cfg : LoggerConfig) (s : LoggerState) (level : Level)
    (subject : String) (message : JSVal) (now : Nat) : Log × LoggerState :=
  let s1 := recordBuilt s
  let lb := Logger.build s1 level subject (normalizeMessage message) now
  if cfg.hasTransport = false then lb
  else
    let r := SyncDispatcher.dispatch ⟨cfg.transports, cfg.minLevel⟩ lb.1
    (lb.1, { lb.2 with
              dispatched := lb.2.dispatched + r.dispatched,
              filtered := lb.2.filtered + r.filtered,
              transportErrors := lb.2.transportErrors + r.transportErrors })

/-- An exception leaving a high-severity Logger method: either the caller's
own error instance rethrown, or a freshly constructed instance of the
supplied error constructor with the built message. -/
inductive Thrown where
  | rethrown (v : JSVal)
  | constructed (builderName : String) (message : String)
deriving Repr, DecidableEq

/-- The `.name` of a function value (used to identify which constructor a
`Thrown.constructed` value instantiates). -/
def builderNameOf : JSVal → String
  | .fnVal _ name _ => name
  | _ => ""

/-- Outcome of one `Logger.handleErrorLevel` call: the thrown exception (if
any), the built entry (if any), and the state after the call. -/
structure ErrorLevelResult where
  thrown : Option Thrown
  log : Option Log
  state : LoggerState
deriving Repr, DecidableEq

/-- `Logger.handleErrorLevel` (lines 449-470): an `Error` instance is
rethrown as-is (stack trimming by `captureStack` is cosmetic and not
modelled); an error-constructor input throws a newly built instance with
the `buildError` message (the extra message normalized first unless
`undefined`); anything else is emitted as an ordinary entry. -/
def Logger.handleErrorLevel (cfg : LoggerConfig) (s : LoggerState) (level : Level)
    (subject : String) (input : JSVal) (message : Option JSVal) (now : Nat) :
    ErrorLevelResult :=
  if instanceofError input then
    { thrown := some (.rethrown input), log := none, state := s }
  else if isErrorBuilder input then
    let normalizedMessage := message.map normalizeMessage
    { thrown := some (.constructed (builderNameOf input)
        (buildErrorMessage subject normalizedMessage)),
      log := none, state := s }
  else
    let ls := Logger.emit cfg s level subject input now
    { thrown := none, log := some ls.1, state := ls.2 }

/-- One public Logger call: the four low-severity helpers go straight to
`emit`; the four high-severity helpers go through `handleErrorLevel`. -/
inductive LoggerCall where
  | infoLevel (level : Level) (subject : String) (message : JSVal) (now : Nat)
  | errorLevel (level : Level) (subject : String) (input : JSVal)
      (message : Option JSVal) (now : Nat)

/-- Effect of one Logger call on the state, together with the entry it
built (if any). -/
def Logger.step (cfg : LoggerConfig) (s : LoggerState) :
    LoggerCall → LoggerState × Option Log
  | .infoLevel level subject message now =>
      let ls := Logger.emit cfg s level subject message now
      (ls.2, some ls.1)
  | .errorLevel level subject input message now =>
      let r := Logger.handleErrorLevel cfg s level subject input message now
      (r.state, r.log)

/-- Run a sequence of Logger calls, collecting the built entries in order. -/
def Logger.run (cfg : LoggerConfig) (s : LoggerState) :
    List LoggerCall → LoggerState × List Log
  | [] => (s, [])
  | c :: cs =>
      let sr := Logger.step cfg s c
      let rest := Logger.run cfg sr.1 cs
      (rest.1, sr.2.toList ++ rest.2)

theorem Logger.emit_id (cfg : LoggerConfig) (s : LoggerState) (level : Level)
    (subject : String) (message : JSVal) (now : Nat) :
    (Logger.emit cfg s level subject message now).1.id = s.counterID + 1 := by
  unfold Logger.emit Logger.build recordBuilt
  split <;> rfl

theorem Logger.emit_counter (cfg : LoggerConfig) (s : LoggerState) (level : Level)
    (subject : String) (message : JSVal) (now : Nat) :
    (Logger.emit cfg s level subject message now).2.counterID = s.counterID + 1 := by
  unfold Logger.emit Logger.build recordBuilt
  split <;> rfl

theorem Logger.handleErrorLevel_of_throwPath (cfg : LoggerConfig) (s : LoggerState)
    (level : Level) (subject : String) (input : JSVal) (message : Option JSVal) (now : Nat)
    (h : instanceofError input = true ∨ isErrorBuilder input = true) :
    (Logger.handleErrorLevel cfg s level subject input message now).state = s ∧
    (Logger.handleErrorLevel cfg s level subject input message now).log = none := by
  by_cases hi : instanceofError input = true
  · simp [Logger.handleErrorLevel, hi]
  · have hb : isErrorBuilder input = true := by
      rcases h with h | h
      · exact absurd h hi
      · exact h
    simp [Logger.handleErrorLevel, hi, hb]

theorem Logger.handleErrorLevel_of_plain (cfg : LoggerConfig) (s : LoggerState)
    (level : Level) (subject : String) (input : JSVal) (message : Option JSVal) (now : Nat)
    (h1 : instanceofError input = false) (h2 : isErrorBuilder input = false) :
    Logger.handleErrorLevel cfg s level subject input message now =
      { thrown := none,
        log := some (Logger.emit cfg s level subject input now).1,
        state := (Logger.emit cfg s level subject input now).2 } := by
  simp [Logger.handleErrorLevel, h1, h2]

theorem Logger.run_ids (cfg : LoggerConfig) :
    ∀ (calls : List LoggerCall) (s : LoggerState),
      (Logger.run cfg s calls).2.map Log.id =
        List.range' (s.counterID + 1) (Logger.run cfg s calls).2.length ∧
      (Logger.run cfg s calls).1.counterID =
        s.counterID + (Logger.run cfg s calls).2.length := by
  intro calls
  induction calls with
  | nil => intro s; simp [Logger.run]
  | cons c cs ih =>
      intro s
      cases c with
      | infoLevel level subject message now =>
          have hid := Logger.emit_id cfg s level subject message now
          have hc := Logger.emit_counter cfg s level subject message now
          have ihs := ih (Logger.emit cfg s level subject message now).2
          simp only [Logger.run, Logger.step, Option.toList, List.cons_append,
            List.nil_append, List.map_cons, List.length_cons] at *
          refine ⟨?_, ?_⟩
          · rw [hid, ihs.1, hc, List.range'_succ]
          · rw [ihs.2, hc]
            omega
      | errorLevel level subject input message now =>
          by_cases hthrow : instanceofError input = true ∨ isErrorBuilder input = true
          · have hh := Logger.handleErrorLevel_of_throwPath cfg s level subject input
              message now hthrow
            have ihs := ih s
            simp only [Logger.run, Logger.step, hh.1, hh.2, Option.toList,
              List.nil_append]
            exact ihs
          · push_neg at hthrow
            have h1 : instanceofError input = false := by
              cases hi : instanceofError input
              · rfl
              · exact absurd hi hthrow.1
            have h2 : isErrorBuilder input = false := by
              cases hb : isErrorBuilder input
              · rfl
              · exact absurd hb hthrow.2
            have hh := Logger.handleErrorLevel_of_plain cfg s level subject input
              message now h1 h2
            have hid := Logger.emit_id cfg s level subject input now
            have hc := Logger.emit_counter cfg s level subject input now
            have ihs := ih (Logger.emit cfg s level subject input now).2
            simp only [Logger.run, Logger.step, hh, Option.toList, List.cons_append,
              List.nil_append, List.map_cons, List.length_cons] at *
            refine ⟨?_, ?_⟩
            · rw [hid, ihs.1, hc, List.range'_succ]
            · rw [ihs.2, hc]
              omega

/-- Example configuration: no transports, metrics disabled (used where the
dispatch outcome is irrelevant). -/
def cfgNoTransport : LoggerConfig := ⟨[], Level.debug, false⟩

/-- Example high-severity payload: an already-constructed error instance. -/
def exErrInstance : JSVal := JSVal.errVal none "TypeError" "boom"

/-- Example call sequence: build, throw (error instance), build. -/
def exCalls : List LoggerCall :=
  [LoggerCall.infoLevel Level.debug "A" (JSVal.str "x") 0,
   LoggerCall.errorLevel Level.error "B" exErrInstance none 1,
   LoggerCall.infoLevel Level.informational "C" (JSVal.str "y") 2]

/-- C2: per Logger instance the id counter starts at 0 and is
pre-incremented on each build, so over any call sequence the built entries
carry ids `1, 2, 3, ...` in build order (`List.range' 1 k`), the counter
ends at the number of built entries, and a high-severity call that takes a
throw path (error instance or error-constructor payload) leaves the counter
unchanged. -/
theorem logger_ids_monotone :
    LoggerState.init.counterID = 0 ∧
    (∀ (cfg : LoggerConfig) (calls : List LoggerCall),
      (Logger.run cfg LoggerState.init calls).2.map Log.id =
        List.range' 1 (Logger.run cfg LoggerState.init calls).2.length ∧
      (Logger.run cfg LoggerState.init calls).1.counterID =
        (Logger.run cfg LoggerState.init calls).2.length) ∧
    (∀ (cfg : LoggerConfig) (s : LoggerState) (level : Level) (subject : String)
        (input : JSVal) (message : Option JSVal) (now : Nat),
      instanceofError input = true ∨ isErrorBuilder input = true →
      (Logger.handleErrorLevel cfg s level subject input message now).state.counterID
        = s.counterID) := by
  refine ⟨rfl, ?_, ?_⟩
  · intro cfg calls
    have h := Logger.run_ids cfg calls LoggerState.init
    simpa [LoggerState.init] using h
  · intro cfg s level subject input message now h
    rw [(Logger.handleErrorLevel_of_throwPath cfg s level subject input message now h).1]

/-- Witness for C2: a concrete three-call sequence whose middle call throws;
the two built entries carry ids 1 and 2 and the thrown call does not advance
the counter. -/
theorem logger_ids_monotone_witness :
    ((Logger.run cfgNoTransport LoggerState.init exCalls).2.map Log.id =
        List.range' 1 (Logger.run cfgNoTransport LoggerState.init exCalls).2.length ∧
      (Logger.run cfgNoTransport LoggerState.init exCalls).1.counterID =
        (Logger.run cfgNoTransport LoggerState.init exCalls).2.length) ∧
    (instanceofError exErrInstance = true ∨ isErrorBuilder exErrInstance = true) ∧
    (Logger.handleErrorLevel cfgNoTransport LoggerState.init Level.error "B"
        exErrInstance none 1).state.counterID = LoggerState.init.counterID :=
  ⟨logger_ids_monotone.2.1 cfgNoTransport exCalls,
   Or.inl (by decide),
   logger_ids_monotone.2.2 cfgNoTransport LoggerState.init Level.error "B"
     exErrInstance none 1 (Or.inl (by decide))⟩

/-- C3: a high-severity call whose payload is an already-constructed error
instance rethrows exactly that instance, builds no entry, and leaves the
whole state — id counter and the `built`/`dispatched`/`filtered` counters —
unchanged. -/
theorem logger_error_instance_throw (cfg : LoggerConfig) (s : LoggerState)
    (level : Level) (subject : String) (stack : Option String) (name msg : String)
    (message : Option JSVal) (now : Nat) :
    Logger.handleErrorLevel cfg s level subject (JSVal.errVal stack name msg) message now
      = { thrown := some (Thrown.rethrown (JSVal.errVal stack name msg)),
          log := none, state := s } ∧
    (Logger.handleErrorLevel cfg s level subject (JSVal.errVal stack name msg)
        message now).state.built = s.built ∧
    (Logger.handleErrorLevel cfg s level subject (JSVal.errVal stack name msg)
        message now).state.dispatched = s.dispatched ∧
    (Logger.handleErrorLevel cfg s level subject (JSVal.errVal stack name msg)
        message now).state.filtered = s.filtered := by
  refine ⟨?_, ?_, ?_, ?_⟩ <;> simp [Logger.handleErrorLevel, instanceofError]

theorem string_append_dash (subject nm : String) :
    "(" ++ subject ++ ") " ++ ("- " ++ nm) = "(" ++ subject ++ ") - " ++ nm := by
  have h2 : (") " : String) ++ "- " = ") - " := rfl
  have h : ") " ++ ("- " ++ nm) = ") - " ++ nm := by
    rw [← String.append_assoc, h2]
  rw [String.append_assoc ("(" ++ subject), h, ← String.append_assoc]

/-- C9 (amended): a high-severity call whose payload is an error-constructor
reference (a function whose `.prototype` is, or descends from,
`Error.prototype`) throws a newly constructed instance of that constructor
and builds no entry.  The thrown message is the template
`` `(${subject}) ${message ? `- ${message}` : ''}` `` trimmed: with a
supplied extra message whose normalized form is non-empty it is
`"(<subject>) - <extra>"` (trimmed); with the extra message absent or
normalizing to the empty string the `- ` segment is omitted and the message
is just `"(<subject>)"` (trimmed). -/
theorem logger_error_builder_throw (cfg : LoggerConfig) (s : LoggerState)
    (level : Level) (subject : String) (p : FnProto) (name src : String)
    (message : Option JSVal) (now : Nat)
    (hp : (p.isErrorProto || p.errorProtoInChain) = true) :
    (Logger.handleErrorLevel cfg s level subject (JSVal.fnVal (some p) name src)
        message now
      = { thrown := some (Thrown.constructed name
            (buildErrorMessage subject (message.map normalizeMessage))),
          log := none, state := s }) ∧
    (∀ nm : String, nm ≠ "" →
        buildErrorMessage subject (some nm) = jsTrim ("(" ++ subject ++ ") - " ++ nm)) ∧
    buildErrorMessage subject none = jsTrim ("(" ++ subject ++ ") ") ∧
    buildErrorMessage subject (some "") = jsTrim ("(" ++ subject ++ ") ") := by
  refine ⟨?_, ?_, ?_, ?_⟩
  · simp [Logger.handleErrorLevel, instanceofError, isErrorBuilder, hp, builderNameOf]
  · intro nm hnm
    unfold buildErrorMessage
    simp only [if_pos hnm]
    rw [string_append_dash]
  · simp [buildErrorMessage]
  · simp [buildErrorMessage]

/-- Witness for C9's amended theorem at a concrete constructor payload and a
concrete non-empty extra message. -/
theorem logger_error_builder_throw_witness :
    ((FnProto.mk false true).isErrorProto || (FnProto.mk false true).errorProtoInChain)
        = true ∧
    (Logger.handleErrorLevel cfgNoTransport LoggerState.init Level.critical "Auth"
        (JSVal.fnVal (some (FnProto.mk false true)) "Boom" "class Boom")
        (some (JSVal.str "failed")) 0
      = { thrown := some (Thrown.constructed "Boom"
            (buildErrorMessage "Auth" ((some (JSVal.str "failed")).map normalizeMessage))),
          log := none, state := LoggerState.init }) ∧
    buildErrorMessage "Auth" (some "failed") = jsTrim ("(" ++ "Auth" ++ ") - " ++ "failed") :=
  ⟨by decide,
   (logger_error_builder_throw cfgNoTransport LoggerState.init Level.critical "Auth"
      (FnProto.mk false true) "Boom" "class Boom" (some (JSVal.str "failed")) 0
      (by decide)).1,
   (logger_error_builder_throw cfgNoTransport LoggerState.init Level.critical "Auth"
      (FnProto.mk false true) "Boom" "class Boom" (some (JSVal.str "failed")) 0
      (by decide)).2.1 "failed" (by decide)⟩

/-- C9 (counterexample to the claim as stated): with subject `"S"` and a
supplied extra message that is the empty string (which the Message
Normalizer passes through unchanged), the thrown message is `"(S)"` — the
template drops the `- ` segment for a falsy string — and not the claimed
form `"(S) - "` with the normalized extra message appended. -/
theorem buildError_empty_message_counterexample :
    (Logger.handleErrorLevel cfgNoTransport LoggerState.init Level.error "S"
        (JSVal.fnVal (some (FnProto.mk true false)) "Boom" "class Boom")
        (some (JSVal.str "")) 0).thrown
      = some (Thrown.constructed "Boom" "(S)") ∧
    ("(S)" : String) ≠ "(" ++ "S" ++ ") - " ++ normalizeMessage (JSVal.str "") := by
  constructor
  · decide
  · decide

/-!
## Metrics accessor (`Logger.metrics`, lines 256-261, and
`errors/LoggerError.ts`, lines 18-27)

`get metrics()` returns the snapshot when `isMetricsEnabled`, otherwise it
calls `requireMetrics(this)`, which throws a
`LoggerError('You have to enable metrics to use them', 'METRICS_DISABLED', 1)`
whose `status` is `10 + 1`.  The contextual logger exposes
`metrics: () => this.metrics`, i.e. the very same accessor.
-/

/-- Read-only metrics snapshot (`models/Metrics.type.ts`). -/
structure LoggerMetrics where
  built : Nat
  dispatched : Nat
  filtered : Nat
  transportErrors : Nat
deriving Repr, DecidableEq

/-- Observable identity of a thrown `LoggerError`. -/
structure LoggerErrorModel where
  code : String
  message : String
  status : Nat
deriving Repr, DecidableEq

/-- The error thrown by `requireMetrics`. -/
def requireMetricsError : LoggerErrorModel :=
  { code := "METRICS_DISABLED",
    message := "You have to enable metrics to use them",
    status := 11 }

/-- The `Logger.metrics` getter: snapshot when enabled, otherwise the
`requireMetrics` throw. -/
def Logger.metricsGet (cfg : LoggerConfig) (s : LoggerState) :
    Except LoggerErrorModel LoggerMetrics :=
  if cfg.metricsEnabled then
    Except.ok { built := s.built, dispatched := s.dispatched,
                filtered := s.filtered, transportErrors := s.transportErrors }
  else Except.error requireMetricsError

/-- `context.metrics = () => this.metrics` of `createContextLogger`: the
contextual accessor delegates to the owning Logger's getter. -/
def ContextLogger.metrics (cfg : LoggerConfig) (s : LoggerState) :
    Except LoggerErrorModel LoggerMetrics :=
  Logger.metricsGet cfg s

/-- C10: with the metrics option absent, `false`, or an object whose
`enabled` flag is not set, `isMetricsEnabled` is false, and then reading the
metrics accessor — directly or through a contextual logger's `metrics()` —
throws the `LoggerError` with code `METRICS_DISABLED` instead of returning a
snapshot. -/
theorem logger_metrics_disabled_throws :
    (isMetricsEnabledOf MetricsOpt.absent = false ∧
     isMetricsEnabledOf (MetricsOpt.boolOpt false) = false ∧
     (∀ cb, isMetricsEnabledOf (MetricsOpt.objOpt none cb) = false)) ∧
    (∀ (cfg : LoggerConfig) (s : LoggerState), cfg.metricsEnabled = false →
       Logger.metricsGet cfg s = Except.error requireMetricsError ∧
       ContextLogger.metrics cfg s = Except.error requireMetricsError ∧
       requireMetricsError.code = "METRICS_DISABLED") := by
  refine ⟨⟨rfl, rfl, fun cb => rfl⟩, ?_⟩
  intro cfg s h
  refine ⟨?_, ?_, rfl⟩ <;> simp [Logger.metricsGet, ContextLogger.metrics, h]

/-- Witness for C10 at a concrete metrics-disabled configuration. -/
theorem logger_metrics_disabled_throws_witness :
    cfgNoTransport.metricsEnabled = false ∧
    (Logger.metricsGet cfgNoTransport LoggerState.init = Except.error requireMetricsError ∧
     ContextLogger.metrics cfgNoTransport LoggerState.init = Except.error requireMetricsError ∧
     requireMetricsError.code = "METRICS_DISABLED") :=
  ⟨rfl, logger_metrics_disabled_throws.2 cfgNoTransport LoggerState.init rfl⟩

/-!
## ReactiveDispatcher (`core/Dispatcher/LogDispatcher.ts`, lines 119-349)

Batching dispatcher with an internal buffer, a `scheduled` flag, a
`disposed` flag, and an idle timer that calls `dispose()` when it fires.
Scheduling and timers are environmental; they are modelled as events
(`RDEvent`): a `dispatch` call, the scheduled flush callback firing, an
explicit `drain()`, and the idle timer firing (`resetIdleTimer` installs
`() => this.dispose()`, and it early-returns when already disposed, so the
idle event only ever fires on a live dispatcher).

Deliveries are observed as `(entry, transport index)` pairs in the order
the `transport.log` calls happen; a raising transport is caught and
swallowed, so its call still appears.
-/

/-- Construction-time fields of `ReactiveDispatcher`: the copied transport
snapshot and the minimum level.  The factory `DISPATCHER_FACTORIES.reactive`
passes the metrics collector as a fourth constructor argument, but the
`ReactiveDispatcher` constructor declares only `(transports, minLevel,
opts)`, so the collector is dropped and the reactive dispatcher has no way
to record any metric. -/
structure ReactiveDispatcher where
  transports : List LogTransport
  minLevel : Level

/-- Mutable state of a `ReactiveDispatcher`. -/
structure RDState where
  buffer : List Log
  scheduled : Bool
  disposed : Bool
deriving Repr, DecidableEq

/-- State right after construction. -/
def RDState.init : RDState := { buffer := [], scheduled := false, disposed := false }

/-- `ReactiveDispatcher.dispatch` (lines 226-231): no-op when disposed, when
the transport set is empty, or when the entry fails the threshold; otherwise
append to the buffer and ensure a flush is scheduled (`schedule()` leaves
the flag set). -/
def ReactiveDispatcher.dispatch (d : ReactiveDispatcher) (s : RDState) (log : Log) :
    RDState :=
  if s.disposed || d.transports.length == 0 || decide (log.level > d.minLevel) then s
  else { s with buffer := s.buffer ++ [log], scheduled := true }

/-- The batch loop of `ReactiveDispatcher.flush` (lines 253-263): iterate
the detached batch in order, `continue` on entries failing the threshold,
and call every transport for each remaining entry (raises swallowed). -/
def deliverBatch (d : ReactiveDispatcher) : List Log → List (Log × Nat)
  | [] => []
  | log :: rest =>
      if decide (log.level > d.minLevel) then deliverBatch d rest
      else ((List.range d.transports.length).map (fun i => (log, i))) ++ deliverBatch d rest

/-- `ReactiveDispatcher.flush` (lines 246-266): clear the scheduled flag;
return if disposed or the buffer is empty; otherwise detach the buffer
(`splice(0)`) and deliver the batch. -/
def ReactiveDispatcher.flush (d : ReactiveDispatcher) (s : RDState) :
    RDState × List (Log × Nat) :=
  let s0 : RDState := { s with scheduled := false }
  if s0.disposed || s0.buffer.length == 0 then (s0, [])
  else ({ s0 with buffer := [] }, deliverBatch d s0.buffer)

/-- `ReactiveDispatcher.dispose` (lines 272-309): idempotent; marks the
dispatcher disposed, clears the scheduled flag, and drops any buffered
entries (timer/channel/exit-hook teardown is resource bookkeeping with no
observable delivery effect). -/
def ReactiveDispatcher.dispose (s : RDState) : RDState :=
  if s.disposed then s
  else { buffer := [], scheduled := false, disposed := true }

/-- Environmental events driving a `ReactiveDispatcher`. -/
inductive RDEvent where
  | dispatchEv (log : Log)
  | flushEv
  | drainEv
  | idleFireEv

/-- One event step: its state transition and the deliveries it performs. -/
def ReactiveDispatcher.stepEv (d : ReactiveDispatcher) (s : RDState) :
    RDEvent → RDState × List (Log × Nat)
  | .dispatchEv log => (ReactiveDispatcher.dispatch d s log, [])
  | .flushEv => ReactiveDispatcher.flush d s
  | .drainEv => ReactiveDispatcher.flush d s
  | .idleFireEv => (ReactiveDispatcher.dispose s, [])

/-- Run a sequence of events, concatenating all deliveries in order. -/
def ReactiveDispatcher.runEv (d : ReactiveDispatcher) (s : RDState) :
    List RDEvent → RDState × List (Log × Nat)
  | [] => (s, [])
  | e :: es =>
      let r := ReactiveDispatcher.stepEv d s e
      let rest := ReactiveDispatcher.runEv d r.1 es
      (rest.1, r.2 ++ rest.2)

theorem deliverBatch_eq (d : ReactiveDispatcher) :
    ∀ batch : List Log,
      deliverBatch d batch =
        (batch.filter (fun l => decide (l.level ≤ d.minLevel))).flatMap
          (fun l => (List.range d.transports.length).map (fun i => (l, i))) := by
  intro batch
  induction batch with
  | nil => simp [deliverBatch]
  | cons log rest ih =>
      by_cases h : log.level > d.minLevel
      · have h2 : ¬ log.level ≤ d.minLevel := Nat.not_le.mpr h
        simp [deliverBatch, h, h2, ih]
      · have h2 : log.level ≤ d.minLevel := Nat.le_of_not_lt h
        simp [deliverBatch, h, h2, ih]

/-- C5: one `ReactiveDispatcher.flush` delivers exactly the buffered entries
that pass the threshold, each to every transport, in the order the entries
were enqueued — the batch is not sorted by severity (or anything else)
before delivery. -/
theorem reactiveDispatcher_flush_enqueue_order (d : ReactiveDispatcher) (s : RDState)
    (hlive : s.disposed = false) :
    (ReactiveDispatcher.flush d s).2 =
      (s.buffer.filter (fun l => decide (l.level ≤ d.minLevel))).flatMap
        (fun l => (List.range d.transports.length).map (fun i => (l, i))) := by
  unfold ReactiveDispatcher.flush
  by_cases hb : s.buffer.length = 0
  · have hnil : s.buffer = [] := List.length_eq_zero.mp hb
    simp [hlive, hnil]
  · simp only [hlive, hb, Bool.false_or, beq_iff_eq, if_neg hb]
    exact deliverBatch_eq d s.buffer

/-- Example buffer enqueued in anti-severity order: a `debug` entry first,
an `emergency` entry second. -/
def exBatchState : RDState :=
  { buffer := [⟨1, Level.debug, "S", "d", 0⟩, ⟨2, Level.emergency, "S", "e", 0⟩],
    scheduled := true, disposed := false }

/-- Example reactive dispatcher with one transport and threshold `debug`. -/
def exReactive : ReactiveDispatcher := ⟨[exTransportOk], Level.debug⟩

/-- Witness for C5: the flush of a buffer holding a debug entry followed by
an emergency entry delivers them in that enqueue order (a severity sort
would deliver the emergency entry first). -/
theorem reactiveDispatcher_flush_enqueue_order_witness :
    exBatchState.disposed = false ∧
    (ReactiveDispatcher.flush exReactive exBatchState).2 =
      (exBatchState.buffer.filter
          (fun l => decide (l.level ≤ exReactive.minLevel))).flatMap
        (fun l => (List.range exReactive.transports.length).map (fun i => (l, i))) :=
  ⟨rfl, reactiveDispatcher_flush_enqueue_order exReactive exBatchState rfl⟩

theorem stepEv_inert (d : ReactiveDispatcher) :
    ∀ e : RDEvent,
      ReactiveDispatcher.stepEv d ⟨[], false, true⟩ e = (⟨[], false, true⟩, []) := by
  intro e
  cases e <;> simp [ReactiveDispatcher.stepEv, ReactiveDispatcher.dispatch,
    ReactiveDispatcher.flush, ReactiveDispatcher.dispose]

theorem runEv_inert (d : ReactiveDispatcher) :
    ∀ evs : List RDEvent,
      ReactiveDispatcher.runEv d ⟨[], false, true⟩ evs = (⟨[], false, true⟩, []) := by
  intro evs
  induction evs with
  | nil => rfl
  | cons e es ih => simp [ReactiveDispatcher.runEv, stepEv_inert, ih]

theorem dispose_of_live (s : RDState) (hlive : s.disposed = false) :
    ReactiveDispatcher.dispose s = ⟨[], false, true⟩ := by
  simp [ReactiveDispatcher.dispose, hlive]

/-- C7: when the idle timer fires on a live dispatcher, the dispatcher is
disposed: its buffered entries are discarded (and since every later event
delivers nothing, they are never delivered), and every subsequent
`dispatch` call is a silent no-op that buffers nothing and delivers
nothing. -/
theorem reactiveDispatcher_idle_shutdown (d : ReactiveDispatcher) (s : RDState)
    (hlive : s.disposed = false) :
    ((ReactiveDispatcher.stepEv d s RDEvent.idleFireEv).1.disposed = true ∧
     (ReactiveDispatcher.stepEv d s RDEvent.idleFireEv).1.buffer = [] ∧
     (ReactiveDispatcher.stepEv d s RDEvent.idleFireEv).2 = []) ∧
    (∀ evs : List RDEvent,
      ReactiveDispatcher.runEv d (ReactiveDispatcher.stepEv d s RDEvent.idleFireEv).1 evs
        = ((ReactiveDispatcher.stepEv d s RDEvent.idleFireEv).1, [])) ∧
    (∀ log : Log,
      ReactiveDispatcher.dispatch d (ReactiveDispatcher.stepEv d s RDEvent.idleFireEv).1 log
        = (ReactiveDispatcher.stepEv d s RDEvent.idleFireEv).1) := by
  have hstep : ReactiveDispatcher.stepEv d s RDEvent.idleFireEv = (⟨[], false, true⟩, []) := by
    simp [ReactiveDispatcher.stepEv, dispose_of_live s hlive]
  rw [hstep]
  refine ⟨⟨rfl, rfl, rfl⟩, ?_, ?_⟩
  · intro evs
    exact runEv_inert d evs
  · intro log
    simp [ReactiveDispatcher.dispatch]

/-- Witness for C7: idle firing on a live dispatcher with a non-empty
buffer, followed by a concrete event trace that tries to flush, drain, and
dispatch again. -/
theorem reactiveDispatcher_idle_shutdown_witness :
    exBatchState.disposed = false ∧
    ((ReactiveDispatcher.stepEv exReactive exBatchState RDEvent.idleFireEv).1.disposed = true ∧
     (ReactiveDispatcher.stepEv exReactive exBatchState RDEvent.idleFireEv).1.buffer = [] ∧
     (ReactiveDispatcher.stepEv exReactive exBatchState RDEvent.idleFireEv).2 = []) ∧
    ReactiveDispatcher.runEv exReactive
        (ReactiveDispatcher.stepEv exReactive exBatchState RDEvent.idleFireEv).1
        [RDEvent.flushEv, RDEvent.dispatchEv exLogErr, RDEvent.drainEv]
      = ((ReactiveDispatcher.stepEv exReactive exBatchState RDEvent.idleFireEv).1, []) ∧
    ReactiveDispatcher.dispatch exReactive
        (ReactiveDispatcher.stepEv exReactive exBatchState RDEvent.idleFireEv).1 exLogErr
      = (ReactiveDispatcher.stepEv exReactive exBatchState RDEvent.idleFireEv).1 :=
  ⟨rfl,
   (reactiveDispatcher_idle_shutdown exReactive exBatchState rfl).1,
   (reactiveDispatcher_idle_shutdown exReactive exBatchState rfl).2.1
     [RDEvent.flushEv, RDEvent.dispatchEv exLogErr, RDEvent.drainEv],
   (reactiveDispatcher_idle_shutdown exReactive exBatchState rfl).2.2 exLogErr⟩

/-- `Logger.emit` with the `reactive` dispatcher mode wired in by
`DISPATCHER_FACTORIES.reactive`.  The factory invokes
`new ReactiveDispatcher(transports, minLevel, undefined, metricsCollector)`,
but the constructor signature is `(transports, minLevel, opts?)`, so the
collector argument is silently dropped: the reactive dispatcher holds no
metrics collector and records no `filtered`/`dispatched`/`transportErrors`
events.  Only the facade-side `recordBuilt` fires. -/
def Logger.emitReactive (cfg : LoggerConfig) (s : LoggerState) (rd : RDState)
    (level : Level) (subject : String) (message : JSVal) (now : Nat) :
    Log × LoggerState × RDState :=
  let s1 := recordBuilt s
  let lb := Logger.build s1 level subject (normalizeMessage message) now
  if cfg.hasTransport = false then (lb.1, lb.2, rd)
  else (lb.1, lb.2, ReactiveDispatcher.dispatch ⟨cfg.transports, cfg.minLevel⟩ rd lb.1)

/-- Example Logger configuration with the reactive dispatcher in mind: one
transport, threshold `warning`, metrics enabled. -/
def cfgReactiveEx : LoggerConfig := ⟨[exTransportOk], Level.warning, true⟩

/-- C8 (divergence witness): a `debug` entry handed to the reactive pipeline
under a `warning` threshold is dropped for level reasons at the enqueue-time
check, yet the `filtered` counter stays at 0 — not the exactly-once the
claim requires — because the reactive dispatcher never receives the metrics
collector.  (`built` still advances, showing the facade-side collector is
live; the entry is not even buffered, so no flush-time check can record it
either.) -/
theorem reactiveDispatcher_filtered_metric_missing :
    (Logger.emitReactive cfgReactiveEx LoggerState.init RDState.init Level.debug "S"
        (JSVal.str "hello") 0).2.1.built = 1 ∧
    (Logger.emitReactive cfgReactiveEx LoggerState.init RDState.init Level.debug "S"
        (JSVal.str "hello") 0).2.1.filtered = 0 ∧
    (Logger.emitReactive cfgReactiveEx LoggerState.init RDState.init Level.debug "S"
        (JSVal.str "hello") 0).2.2.buffer = [] ∧
    ¬ (Logger.emitReactive cfgReactiveEx LoggerState.init RDState.init Level.debug "S"
        (JSVal.str "hello") 0).2.1.filtered = 1 := by
  refine ⟨?_, ?_, ?_, ?_⟩ <;> decide

/-!
## Ordered-retry HTTP delivery queue (C4)

Modelled from the spec: the `HttpTransport` whose pending-queue items carry
a per-item attempt counter and whose options include a configurable maximum
attempt count is exercised by the repository's tests (queue items
`{ body, log, attempts }`, option `maxAttempts`), but its source file is
not present; `src/unnamed/part_007` is an earlier snapshot whose
`PendingPayload` has no `attempts` field and whose `flushQueue` knows no
maximum.  Following spec §4.4: queue processing attempts the head item
only; on success remove it and continue; on failure with retry disabled
drop it and stop the pass; on failure with retry enabled leave it at the
head with its attempt counter incremented so the next trigger retries it,
unless a configured maximum attempt count is reached, in which case drop
it; always stop the pass after the first failure.

One pass is a function of the queue and of a per-item delivery outcome
`ok : PendingPayload → Bool` (the item's `fetch` round-trip succeeding);
since the attempt counter is part of the item, distinct retries of one
payload may have distinct outcomes.  At most one attempt is in flight at a
time: the pass is sequential and touches only the head item at each step.
-/

/-- A pending queue item: serialized body, originating entry id, and the
number of failed delivery attempts so far. -/
structure PendingPayload where
  body : String
  logId : Nat
  attempts : Nat
deriving Repr, DecidableEq

/-- Retry configuration of the transport: the `retryOnFailure` flag and the
optional `maxAttempts` bound. -/
structure RetryPolicy where
  retryOnFailure : Bool
  maxAttempts : Option Nat
deriving Repr, DecidableEq

/-- Modelled from the spec: one queue-processing pass
(`HttpTransport.flushQueue`).  Returns the successfully delivered items (in
order) and the remaining queue. -/
def flushQueuePass (policy : RetryPolicy) (ok : PendingPayload → Bool) :
    List PendingPayload → List PendingPayload × List PendingPayload
  | [] => ([], [])
  | p :: rest =>
      if ok p then
        let r := flushQueuePass policy ok rest
        (p :: r.1, r.2)
      else if policy.retryOnFailure = false then ([], rest)
      else
        match policy.maxAttempts with
        | some m =>
            if m ≤ p.attempts + 1 then ([], rest)
            else ([], { p with attempts := p.attempts + 1 } :: rest)
        | none => ([], { p with attempts := p.attempts + 1 } :: rest)

theorem flushQueuePass_delivered (policy : RetryPolicy) (ok : PendingPayload → Bool) :
    ∀ q : List PendingPayload, (flushQueuePass policy ok q).1 = q.takeWhile ok := by
  intro q
  induction q with
  | nil => rfl
  | cons p rest ih =>
      by_cases h : ok p = true
      · simp [flushQueuePass, h, List.takeWhile_cons, ih]
      · have h2 : ok p = false := by
          cases hv : ok p
          · rfl
          · exact absurd hv h
        by_cases hr : policy.retryOnFailure = false
        · simp [flushQueuePass, h2, hr, List.takeWhile_cons]
        · cases hm : policy.maxAttempts with
          | none => simp [flushQueuePass, h2, hr, hm, List.takeWhile_cons]
          | some m =>
              by_cases hmax : m ≤ p.attempts + 1
              · simp [flushQueuePass, h2, hr, hm, hmax, List.takeWhile_cons]
              · simp [flushQueuePass, h2, hr, hm, hmax, List.takeWhile_cons]

/-- C4: the modelled ordered-retry queue pass (a) delivers, in strict FIFO
order, exactly the maximal successful prefix of the queue (at most one
attempt in flight, head first); (b) on a failed head with retry disabled,
drops the head and stops the pass; (c) on a failed head with retry enabled
and the maximum not reached (or unconfigured), keeps the item at the head
with its attempt counter incremented, so the next trigger retries the same
item; (d) on a failed head with retry enabled once the configured maximum
attempt count is reached, drops the item instead of retrying further. -/
theorem httpTransport_ordered_retry (policy : RetryPolicy) (ok : PendingPayload → Bool) :
    (∀ q : List PendingPayload, (flushQueuePass policy ok q).1 = q.takeWhile ok) ∧
    (∀ (p : PendingPayload) (rest : List PendingPayload),
        ok p = false → policy.retryOnFailure = false →
        flushQueuePass policy ok (p :: rest) = ([], rest)) ∧
    (∀ (p : PendingPayload) (rest : List PendingPayload),
        ok p = false → policy.retryOnFailure = true →
        (policy.maxAttempts = none ∨
          ∃ m, policy.maxAttempts = some m ∧ p.attempts + 1 < m) →
        flushQueuePass policy ok (p :: rest)
          = ([], { p with attempts := p.attempts + 1 } :: rest)) ∧
    (∀ (p : PendingPayload) (rest : List PendingPayload) (m : Nat),
        ok p = false → policy.retryOnFailure = true →
        policy.maxAttempts = some m → m ≤ p.attempts + 1 →
        flushQueuePass policy ok (p :: rest) = ([], rest)) := by
  refine ⟨flushQueuePass_delivered policy ok, ?_, ?_, ?_⟩
  · intro p rest hok hr
    simp [flushQueuePass, hok, hr]
  · intro p rest hok hr hbound
    rcases hbound with hnone | ⟨m, hm, hlt⟩
    · simp [flushQueuePass, hok, hr, hnone]
    · have hmax : ¬ m ≤ p.attempts + 1 := Nat.not_le.mpr hlt
      simp [flushQueuePass, hok, hr, hm, hmax]
  · intro p rest m hok hr hm hmax
    simp [flushQueuePass, hok, hr, hm, hmax]

/-- Example queue of three pending items. -/
def exQueue : List PendingPayload := [⟨"b1", 1, 0⟩, ⟨"b2", 2, 1⟩, ⟨"b3", 3, 0⟩]

/-- Example delivery outcome: only the item with log id 2 fails. -/
def exOutcome (p : PendingPayload) : Bool := p.logId != 2

/-- Witness for C4 at a concrete queue, outcome, and policies: the
successful prefix is delivered in order; the failing head is dropped
without retry, retried once below the maximum, and dropped at the
maximum. -/
theorem httpTransport_ordered_retry_witness :
    (flushQueuePass ⟨true, some 3⟩ exOutcome exQueue).1 = exQueue.takeWhile exOutcome ∧
    (exOutcome ⟨"b2", 2, 1⟩ = false ∧
      flushQueuePass ⟨false, none⟩ exOutcome [⟨"b2", 2, 1⟩, ⟨"b3", 3, 0⟩]
        = ([], [⟨"b3", 3, 0⟩])) ∧
    (⟨"b2", 2, 1⟩ : PendingPayload).attempts + 1 < 3 ∧
    flushQueuePass ⟨true, some 3⟩ exOutcome [⟨"b2", 2, 1⟩, ⟨"b3", 3, 0⟩]
      = ([], [⟨"b2", 2, 2⟩, ⟨"b3", 3, 0⟩]) ∧
    (3 ≤ (⟨"b2", 2, 2⟩ : PendingPayload).attempts + 1 ∧
      flushQueuePass ⟨true, some 3⟩ exOutcome [⟨"b2", 2, 2⟩, ⟨"b3", 3, 0⟩]
        = ([], [⟨"b3", 3, 0⟩])) :=
  ⟨(httpTransport_ordered_retry ⟨true, some 3⟩ exOutcome).1 exQueue,
   ⟨by decide, (httpTransport_ordered_retry ⟨false, none⟩ exOutcome).2.1
      ⟨"b2", 2, 1⟩ [⟨"b3", 3, 0⟩] (by decide) rfl⟩,
   by decide,
   (httpTransport_ordered_retry ⟨true, some 3⟩ exOutcome).2.2.1
      ⟨"b2", 2, 1⟩ [⟨"b3", 3, 0⟩] (by decide) rfl
      (Or.inr ⟨3, rfl, by decide⟩),
   ⟨by decide, (httpTransport_ordered_retry ⟨true, some 3⟩ exOutcome).2.2.2
      ⟨"b2", 2, 2⟩ [⟨"b3", 3, 0⟩] 3 (by decide) rfl rfl (by decide)⟩⟩
